import Mathlib

/-!
Shallow embedding of the flight-management repository
(`src/create_db.py` for the schema, `src/flight_cli.py` for the
data-access operations driven by the menu).

Modelling conventions:
* the SQLite store is a `DB` record of three row lists plus the
  AUTOINCREMENT counter for `flights.flight_id`;
* ISO datetime strings compare lexicographically in the same order as
  the instants they denote, so departure/arrival timestamps are
  embedded as `Nat` keys (only their order matters to the code);
* SQL result rows are lists of untyped SQLite values (`Val`), so that
  the differing column shapes of the listing queries are visible;
* each mutating operation returns the post-state together with a typed
  `Except` result, mirroring the early-`return` error paths of the CLI
  functions.
-/

inductive Val where
  | null : Val
  | int : Int → Val
  | text : String → Val
deriving Repr, DecidableEq

inductive FlightStatus where
  | Scheduled : FlightStatus
  | Delayed : FlightStatus
  | Cancelled : FlightStatus
deriving Repr, DecidableEq

/-- The `status` column stores the enum value as text. -/
def statusText : FlightStatus → String
  | .Scheduled => "Scheduled"
  | .Delayed => "Delayed"
  | .Cancelled => "Cancelled"

/-- A row of the `destinations` table (`create_db.py`). -/
structure Destination where
  destination_id : Nat
  airport_code : String
  city_name : String
  country : String
  timezone : String
  terminal_info : Option String
deriving Repr, DecidableEq

/-- A row of the `pilots` table (`create_db.py`). -/
structure Pilot where
  pilot_id : Nat
  first_name : String
  last_name : String
  license_no : String
  experience_years : Int
  phone : Option String
deriving Repr, DecidableEq

/-- A row of the `flights` table (`create_db.py`); `pilot_id` is the
nullable foreign key, `destination_id` the required one. -/
structure Flight where
  flight_id : Nat
  flight_number : String
  departure_time : Nat
  arrival_time : Nat
  status : FlightStatus
  aircraft_type : String
  capacity : Int
  pilot_id : Option Nat
  destination_id : Nat
deriving Repr, DecidableEq

/-- The SQLite store: three tables and the AUTOINCREMENT counter that
supplies the next `flight_id`. -/
structure DB where
  destinations : List Destination
  pilots : List Pilot
  flights : List Flight
  nextFlightId : Nat
deriving Repr, DecidableEq

/-- Typed failure results of the data-access layer. -/
inductive DBError where
  | duplicateFlightNumber : DBError
  | arrivalNotAfterDeparture : DBError
  | unknownDestination : DBError
  | unknownPilot : DBError
  | unknownFlight : DBError
  | foreignKeyViolation : DBError
deriving Repr, DecidableEq

/-- `SELECT flight_number FROM flights WHERE flight_number = ?` used as
an existence check in `add_new_flight`. -/
def flightNumberExists (db : DB) (n : String) : Bool :=
  db.flights.any (fun f => f.flight_number == n)

/-- `SELECT destination_id FROM destinations WHERE destination_id = ?`. -/
def destExists (db : DB) (i : Nat) : Bool :=
  db.destinations.any (fun d => d.destination_id == i)

/-- `SELECT ... FROM pilots WHERE pilot_id = ?`. -/
def pilotLookup (db : DB) (i : Nat) : Option Pilot :=
  db.pilots.find? (fun p => p.pilot_id == i)

/-- `SELECT * FROM flights WHERE flight_id = ?`. -/
def flightLookup (db : DB) (i : Nat) : Option Flight :=
  db.flights.find? (fun f => f.flight_id == i)

/-- SQLite foreign-key enforcement for the nullable `pilot_id` column
(`PRAGMA foreign_keys = ON`): a NULL reference always passes, a
non-NULL one must resolve. -/
def pilotRefOk (db : DB) : Option Nat → Bool
  | none => true
  | some p => (pilotLookup db p).isSome

/-- `add_new_flight` (`flight_cli.py`): duplicate-number check, then the
arrival-after-departure check, then destination resolution, then the
optional pilot.  The Python guard `if pilot_id:` is falsy for both
`None` and `0`, so only a nonzero pilot id is validated; an unresolved
nonzero id is replaced by NULL ("Flight will be created without pilot
assignment"), while a literal `0` skips validation and is stopped only
by the database foreign-key check at INSERT time.  `resolvedPilotRef`
is the pilot reference that reaches the INSERT. -/
def resolvedPilotRef (db : DB) : Option Nat → Option Nat
  | none => none
  | some p =>
      if p == 0 then some p
      else if (pilotLookup db p).isSome then some p else none

/-- `add_new_flight`: duplicate-number check, arrival-after-departure
check, destination resolution, pilot resolution, then the INSERT (which
re-checks the pilot foreign key). -/
def createFlight (db : DB) (number : String) (dep arr : Nat) (status : FlightStatus)
    (aircraft : String) (capacity : Int) (pilotId : Option Nat) (destId : Nat) :
    DB × Except DBError Nat :=
  if flightNumberExists db number then (db, .error .duplicateFlightNumber)
  else if arr ≤ dep then (db, .error .arrivalNotAfterDeparture)
  else if !destExists db destId then (db, .error .unknownDestination)
  else
    if pilotRefOk db (resolvedPilotRef db pilotId) then
      ({ db with
          flights := db.flights ++
            [{ flight_id := db.nextFlightId, flight_number := number,
               departure_time := dep, arrival_time := arr, status := status,
               aircraft_type := aircraft, capacity := capacity,
               pilot_id := resolvedPilotRef db pilotId, destination_id := destId }],
          nextFlightId := db.nextFlightId + 1 },
       .ok db.nextFlightId)
    else (db, .error .foreignKeyViolation)

/-- `UPDATE flights SET status = ? WHERE flight_id = ?` applied per row. -/
def setStatus (fid : Nat) (s : FlightStatus) (f : Flight) : Flight :=
  if f.flight_id == fid then { f with status := s } else f

/-- `UPDATE flights SET departure_time = ? WHERE flight_id = ?` per row. -/
def setDeparture (fid : Nat) (dep : Nat) (f : Flight) : Flight :=
  if f.flight_id == fid then { f with departure_time := dep } else f

/-- `UPDATE flights SET aircraft_type = ? WHERE flight_id = ?` per row. -/
def setAircraft (fid : Nat) (t : String) (f : Flight) : Flight :=
  if f.flight_id == fid then { f with aircraft_type := t } else f

/-- `UPDATE flights SET pilot_id = ? WHERE flight_id = ?` per row. -/
def setPilot (fid : Nat) (pid : Nat) (f : Flight) : Flight :=
  if f.flight_id == fid then { f with pilot_id := some pid } else f

/-- `update_flight_information`, choice 1: existence check on the
flight id, then the status UPDATE.  No further validation. -/
def updateFlightStatus (db : DB) (fid : Nat) (s : FlightStatus) :
    DB × Except DBError Unit :=
  match flightLookup db fid with
  | none => (db, .error .unknownFlight)
  | some _ => ({ db with flights := db.flights.map (setStatus fid s) }, .ok ())

/-- `update_flight_information`, choice 2: existence check on the
flight id, then the departure UPDATE.  The new departure is never
compared with the stored arrival time. -/
def updateFlightDeparture (db : DB) (fid : Nat) (newDep : Nat) :
    DB × Except DBError Unit :=
  match flightLookup db fid with
  | none => (db, .error .unknownFlight)
  | some _ => ({ db with flights := db.flights.map (setDeparture fid newDep) }, .ok ())

/-- `update_flight_information`, choice 3: existence check, then the
aircraft-type UPDATE. -/
def updateFlightAircraft (db : DB) (fid : Nat) (t : String) :
    DB × Except DBError Unit :=
  match flightLookup db fid with
  | none => (db, .error .unknownFlight)
  | some _ => ({ db with flights := db.flights.map (setAircraft fid t) }, .ok ())

/-- `assign_pilot_to_flight`: flight existence check, pilot existence
check, then the pilot_id UPDATE (always to the validated, hence
existing, pilot — never back to NULL). -/
def assignPilot (db : DB) (fid pid : Nat) : DB × Except DBError Unit :=
  match flightLookup db fid with
  | none => (db, .error .unknownFlight)
  | some _ =>
      match pilotLookup db pid with
      | none => (db, .error .unknownPilot)
      | some _ => ({ db with flights := db.flights.map (setPilot fid pid) }, .ok ())

/-- `view_update_destinations`, option 2: destination existence check,
then the terminal_info UPDATE. -/
def setTerminal (did : Nat) (t : String) (d : Destination) : Destination :=
  if d.destination_id == did then { d with terminal_info := some t } else d

/-- `UPDATE destinations SET terminal_info = ? WHERE destination_id = ?`
guarded by the existence check. -/
def updateDestinationTerminal (db : DB) (did : Nat) (t : String) :
    DB × Except DBError Unit :=
  match db.destinations.find? (fun d => d.destination_id == did) with
  | none => (db, .error .unknownDestination)
  | some _ => ({ db with destinations := db.destinations.map (setTerminal did t) }, .ok ())

/-!  Listing queries of `view_flights_by_criteria`, `view_pilot_schedule`,
`view_update_destinations` and `view_statistics`. -/

/-- `FROM flights f JOIN destinations d ON f.destination_id = d.destination_id`:
one joined pair per flight and matching destination, flights in table
(rowid) order. -/
def joinedFlights (db : DB) : List (Flight × Destination) :=
  db.flights.flatMap (fun f =>
    (db.destinations.filter (fun d => d.destination_id == f.destination_id)).map
      (fun d => (f, d)))

/-- Comparison used by `ORDER BY f.departure_time` on joined rows. -/
def depLe (a b : Flight × Destination) : Prop :=
  a.1.departure_time ≤ b.1.departure_time

instance : DecidableRel depLe := fun a b => Nat.decLe a.1.departure_time b.1.departure_time

instance : IsTotal (Flight × Destination) depLe := ⟨fun _ _ => Nat.le_total _ _⟩

instance : IsTrans (Flight × Destination) depLe := ⟨fun _ _ _ => Nat.le_trans⟩

/-- `ORDER BY f.departure_time`, modelled as a stable sort of the join
output. -/
def sortByDeparture (l : List (Flight × Destination)) : List (Flight × Destination) :=
  List.insertionSort depLe l

/-- The `LEFT JOIN pilots p ON f.pilot_id = p.pilot_id` columns of a row:
`p.first_name, p.last_name`: NULLs when the flight has no pilot (a NULL
`pilot_id` matches nothing) or the reference does not resolve. -/
def pilotVals (db : DB) (f : Flight) : Val × Val :=
  match f.pilot_id with
  | none => (Val.null, Val.null)
  | some p =>
      match pilotLookup db p with
      | none => (Val.null, Val.null)
      | some q => (Val.text q.first_name, Val.text q.last_name)

/-- Row shape of search option 1 (by destination):
`f.flight_number, f.departure_time, f.status, d.city_name, p.first_name, p.last_name`. -/
def rowByDest (db : DB) (f : Flight) (d : Destination) : List Val :=
  [Val.text f.flight_number, Val.int f.departure_time, Val.text (statusText f.status),
   Val.text d.city_name, (pilotVals db f).1, (pilotVals db f).2]

/-- Row shape of search option 2 (by status):
`f.flight_number, f.departure_time, d.city_name, d.airport_code, p.first_name, p.last_name`
— no status column, airport code instead. -/
def rowByStatus (db : DB) (f : Flight) (d : Destination) : List Val :=
  [Val.text f.flight_number, Val.int f.departure_time, Val.text d.city_name,
   Val.text d.airport_code, (pilotVals db f).1, (pilotVals db f).2]

/-- Row shape of search option 3 (all flights):
`f.flight_number, f.departure_time, f.status, d.city_name, d.airport_code, p.first_name, p.last_name`. -/
def rowAll (db : DB) (f : Flight) (d : Destination) : List Val :=
  [Val.text f.flight_number, Val.int f.departure_time, Val.text (statusText f.status),
   Val.text d.city_name, Val.text d.airport_code, (pilotVals db f).1, (pilotVals db f).2]

/-- Search option 1: `WHERE d.airport_code = ? ORDER BY f.departure_time`. -/
def listFlightsByDestination (db : DB) (code : String) : List (List Val) :=
  (sortByDeparture ((joinedFlights db).filter (fun fd => fd.2.airport_code == code))).map
    (fun fd => rowByDest db fd.1 fd.2)

/-- Search option 2: `WHERE f.status = ? ORDER BY f.departure_time`. -/
def listFlightsByStatus (db : DB) (s : FlightStatus) : List (List Val) :=
  (sortByDeparture ((joinedFlights db).filter (fun fd => fd.1.status == s))).map
    (fun fd => rowByStatus db fd.1 fd.2)

/-- Search option 3: the unfiltered join, `ORDER BY f.departure_time`. -/
def listAllFlights (db : DB) : List (List Val) :=
  (sortByDeparture (joinedFlights db)).map (fun fd => rowAll db fd.1 fd.2)

/-- The result display of `view_flights_by_criteria`:
`pilot_name = f"{flight[4]} {flight[5]}" if flight[4] else "Unassigned"`.
`valStr` is Python string interpolation of a SQLite value (`None`
prints as "None"); `valTruthy` is Python truthiness. -/
def valStr : Val → String
  | .null => "None"
  | .int n => toString n
  | .text s => s

/-- Python truthiness of a SQLite value: `None`, `0` and `""` are falsy. -/
def valTruthy : Val → Bool
  | .null => false
  | .int n => !(n == 0)
  | .text s => !(s == "")

/-- The pilot name printed for a result row: column 4 is tested for
truthiness and columns 4 and 5 are interpolated, else "Unassigned". -/
def displayedPilotName (row : List Val) : String :=
  if valTruthy (row.getD 4 Val.null) then
    valStr (row.getD 4 Val.null) ++ " " ++ valStr (row.getD 5 Val.null)
  else "Unassigned"

/-- `view_pilot_schedule` rows:
`f.flight_number, f.departure_time, f.arrival_time, f.status, d.city_name`. -/
def rowSchedule (f : Flight) (d : Destination) : List Val :=
  [Val.text f.flight_number, Val.int f.departure_time, Val.int f.arrival_time,
   Val.text (statusText f.status), Val.text d.city_name]

/-- `view_pilot_schedule`: pilot existence check, then
`WHERE f.pilot_id = ? ORDER BY f.departure_time` over the join (a NULL
`pilot_id` never equals the parameter). -/
def getPilotSchedule (db : DB) (pid : Nat) : Except DBError (List (List Val)) :=
  match pilotLookup db pid with
  | none => .error .unknownPilot
  | some _ =>
      .ok ((sortByDeparture ((joinedFlights db).filter
              (fun fd => fd.1.pilot_id == some pid))).map
            (fun fd => rowSchedule fd.1 fd.2))

/-- `COUNT(f.flight_id)` for one destination under
`LEFT JOIN flights f ON d.destination_id = f.destination_id GROUP BY d.destination_id`:
NULL flight ids of unmatched destinations are not counted, so this is
the number of flights referencing the destination. -/
def countFlightsTo (db : DB) (did : Nat) : Nat :=
  (db.flights.filter (fun f => f.destination_id == did)).length

/-- A row of the destination listing (`view_update_destinations`, option 1). -/
structure DestListRow where
  destination_id : Nat
  airport_code : String
  city_name : String
  country : String
  terminal_info : Option String
  flight_count : Nat
deriving Repr, DecidableEq

/-- Byte-wise (BINARY collation) lexicographic comparison of text keys,
as SQLite orders the `VARCHAR` columns. -/
def natListLe : List Nat → List Nat → Bool
  | [], _ => true
  | _ :: _, [] => false
  | a :: as, b :: bs =>
      if a < b then true else if b < a then false else natListLe as bs

/-- The collation key of a text value: its character codes. -/
def strKey (s : String) : List Nat := s.data.map Char.toNat

/-- Text comparison under BINARY collation. -/
def strLeB (a b : String) : Bool := natListLe (strKey a) (strKey b)

theorem natListLe_total : ∀ x y : List Nat, natListLe x y = true ∨ natListLe y x = true := by
  intro x
  induction x with
  | nil => intro y; left; rfl
  | cons a as ih =>
      intro y
      cases y with
      | nil => right; rfl
      | cons b bs =>
          rcases Nat.lt_trichotomy a b with hab | hab | hab
          · left; simp [natListLe, hab]
          · subst hab
            rcases ih bs with h | h
            · left; simp [natListLe, Nat.lt_irrefl, h]
            · right; simp [natListLe, Nat.lt_irrefl, h]
          · right; simp [natListLe, hab]

theorem natListLe_trans : ∀ x y z : List Nat,
    natListLe x y = true → natListLe y z = true → natListLe x z = true := by
  intro x
  induction x with
  | nil => intro y z _ _; rfl
  | cons a as ih =>
      intro y z hxy hyz
      cases y with
      | nil => simp [natListLe] at hxy
      | cons b bs =>
          cases z with
          | nil => simp [natListLe] at hyz
          | cons c cs =>
              rcases Nat.lt_trichotomy a b with hab | hab | hab
              · rcases Nat.lt_trichotomy b c with hbc | hbc | hbc
                · simp [natListLe, Nat.lt_trans hab hbc]
                · subst hbc; simp [natListLe, hab]
                · simp [natListLe, hbc, Nat.lt_asymm hbc] at hyz
              · subst hab
                rcases Nat.lt_trichotomy a c with hbc | hbc | hbc
                · simp [natListLe, hbc]
                · subst hbc
                  simp only [natListLe, if_neg (Nat.lt_irrefl a)] at hxy hyz ⊢
                  exact ih bs cs hxy hyz
                · simp [natListLe, hbc, Nat.lt_asymm hbc] at hyz
              · simp [natListLe, hab, Nat.lt_asymm hab] at hxy

/-- `ORDER BY d.city_name` comparison. -/
def cityLe (a b : DestListRow) : Prop := strLeB a.city_name b.city_name = true

instance : DecidableRel cityLe :=
  fun a b => instDecidableEqBool (strLeB a.city_name b.city_name) true

instance : IsTotal DestListRow cityLe :=
  ⟨fun a b => natListLe_total (strKey a.city_name) (strKey b.city_name)⟩

instance : IsTrans DestListRow cityLe :=
  ⟨fun a b c => natListLe_trans (strKey a.city_name) (strKey b.city_name) (strKey c.city_name)⟩

/-- Option 1 of `view_update_destinations`: outer-counted listing of
every destination, `GROUP BY d.destination_id ORDER BY d.city_name`. -/
def listDestinations (db : DB) : List DestListRow :=
  List.insertionSort cityLe
    (db.destinations.map (fun d =>
      { destination_id := d.destination_id, airport_code := d.airport_code,
        city_name := d.city_name, country := d.country,
        terminal_info := d.terminal_info,
        flight_count := countFlightsTo db d.destination_id }))

/-- A row of the top-destinations query in `view_statistics`:
`d.city_name, d.airport_code, COUNT(f.flight_id)`. -/
structure StatRow where
  city_name : String
  airport_code : String
  flight_count : Nat
deriving Repr, DecidableEq

/-- Group order of `GROUP BY d.destination_id`: ascending destination id. -/
def destIdLe (a b : Destination) : Prop := a.destination_id ≤ b.destination_id

instance : DecidableRel destIdLe := fun a b => Nat.decLe a.destination_id b.destination_id

instance : IsTotal Destination destIdLe := ⟨fun a b => Nat.le_total a.destination_id b.destination_id⟩

instance : IsTrans Destination destIdLe := ⟨fun _ _ _ => Nat.le_trans⟩

/-- `ORDER BY flight_count DESC` comparison on the grouped rows. -/
def countGe (a b : StatRow) : Prop := b.flight_count ≤ a.flight_count

instance : DecidableRel countGe := fun a b => Nat.decLe b.flight_count a.flight_count

instance : IsTotal StatRow countGe := ⟨fun a b => Nat.le_total b.flight_count a.flight_count⟩

instance : IsTrans StatRow countGe := ⟨fun _ _ _ h h2 => Nat.le_trans h2 h⟩

/-- The grouped (pre-LIMIT) rows of the top-destinations query: one row
per destination with its outer-counted flight total, in `GROUP BY`
output order. -/
def statGroups (db : DB) : List StatRow :=
  (List.insertionSort destIdLe db.destinations).map (fun d =>
    { city_name := d.city_name, airport_code := d.airport_code,
      flight_count := countFlightsTo db d.destination_id })

/-- The top-destinations block of `view_statistics`:
`ORDER BY flight_count DESC LIMIT 5` — no secondary sort key, so ties
keep the grouping order (modelled by a stable sort). -/
def topDestinations (db : DB) : List StatRow :=
  (List.insertionSort countGe (statGroups db)).take 5

/-- `SELECT COUNT(*) FROM pilots` in `view_statistics`. -/
def pilotCount (db : DB) : Nat := db.pilots.length

/-- `SELECT COUNT(*) FROM destinations` in `view_statistics`. -/
def destCount (db : DB) : Nat := db.destinations.length

/-- `SELECT COUNT(*) FROM flights` in `view_statistics`. -/
def flightCount (db : DB) : Nat := db.flights.length

/-- `SELECT status, COUNT(*) FROM flights GROUP BY status` as a count
for a given status value. -/
def statusCount (db : DB) (s : FlightStatus) : Nat :=
  (db.flights.filter (fun f => f.status == s)).length

deriving instance DecidableEq for Except

/-!  Exposed mutating operations as a step relation, for reachability
(temporal) properties.  The read-only listings do not change the store. -/

/-- One exposed mutating menu operation. -/
inductive Op where
  | create (number : String) (dep arr : Nat) (status : FlightStatus)
      (aircraft : String) (capacity : Int) (pilotId : Option Nat) (destId : Nat) : Op
  | updStatus (fid : Nat) (s : FlightStatus) : Op
  | updDeparture (fid : Nat) (dep : Nat) : Op
  | updAircraft (fid : Nat) (t : String) : Op
  | assign (fid pid : Nat) : Op
  | updTerminal (did : Nat) (t : String) : Op
deriving Repr, DecidableEq

/-- The store state after one operation (failed operations leave the
store unchanged). -/
def applyOp (db : DB) : Op → DB
  | .create n dep arr s a c p d => (createFlight db n dep arr s a c p d).1
  | .updStatus fid s => (updateFlightStatus db fid s).1
  | .updDeparture fid dep => (updateFlightDeparture db fid dep).1
  | .updAircraft fid t => (updateFlightAircraft db fid t).1
  | .assign fid pid => (assignPilot db fid pid).1
  | .updTerminal did t => (updateDestinationTerminal db did t).1

/-- The store state after a sequence of operations. -/
def runOps (db : DB) (ops : List Op) : DB := ops.foldl applyOp db

/-!  Concrete stores used by witnesses and counterexamples. -/

/-- A destination row like the seeded LHR/London one. -/
def lhr : Destination :=
  { destination_id := 1, airport_code := "LHR", city_name := "London",
    country := "United Kingdom", timezone := "GMT+0", terminal_info := some "T5" }

/-- A pilot row like the seeded John Smith one. -/
def smith : Pilot :=
  { pilot_id := 1, first_name := "John", last_name := "Smith",
    license_no := "ATP001234", experience_years := 15, phone := none }

/-- A flight referencing `lhr` and crewed by `smith`. -/
def ba1 : Flight :=
  { flight_id := 1, flight_number := "BA1", departure_time := 10, arrival_time := 20,
    status := FlightStatus.Scheduled, aircraft_type := "Boeing 737", capacity := 180,
    pilot_id := some 1, destination_id := 1 }

/-- The same flight with no assigned pilot. -/
def ba1free : Flight :=
  { ba1 with pilot_id := none }

/-- Store with one destination, one pilot, one crewed flight. -/
def exDB : DB :=
  { destinations := [lhr], pilots := [smith], flights := [ba1], nextFlightId := 2 }

/-- Store with one destination, no pilots, no flights. -/
def exDB1 : DB :=
  { destinations := [lhr], pilots := [], flights := [], nextFlightId := 1 }

/-- Store with two empty destinations whose id order is the reverse of
their city-name order. -/
def exDB2 : DB :=
  { destinations :=
      [{ destination_id := 1, airport_code := "ZRH", city_name := "Zurich",
         country := "Switzerland", timezone := "CET+1", terminal_info := some "A" },
       { destination_id := 2, airport_code := "AMS", city_name := "Amsterdam",
         country := "Netherlands", timezone := "CET+1", terminal_info := some "3" }],
    pilots := [], flights := [], nextFlightId := 1 }

/-- Store with one destination and one pilotless flight. -/
def exDB4 : DB :=
  { destinations := [lhr], pilots := [smith], flights := [ba1free], nextFlightId := 2 }

/-!  Helper lemmas about lookups under row updates and inserts. -/

theorem setStatus_flight_id (fid : Nat) (s : FlightStatus) (x : Flight) :
    (setStatus fid s x).flight_id = x.flight_id := by
  unfold setStatus; split <;> rfl

theorem setDeparture_flight_id (fid dep : Nat) (x : Flight) :
    (setDeparture fid dep x).flight_id = x.flight_id := by
  unfold setDeparture; split <;> rfl

theorem setAircraft_flight_id (fid : Nat) (t : String) (x : Flight) :
    (setAircraft fid t x).flight_id = x.flight_id := by
  unfold setAircraft; split <;> rfl

theorem setPilot_flight_id (fid pid : Nat) (x : Flight) :
    (setPilot fid pid x).flight_id = x.flight_id := by
  unfold setPilot; split <;> rfl

theorem setStatus_pilot_id (fid : Nat) (s : FlightStatus) (x : Flight) :
    (setStatus fid s x).pilot_id = x.pilot_id := by
  unfold setStatus; split <;> rfl

theorem setDeparture_pilot_id (fid dep : Nat) (x : Flight) :
    (setDeparture fid dep x).pilot_id = x.pilot_id := by
  unfold setDeparture; split <;> rfl

theorem setAircraft_pilot_id (fid : Nat) (t : String) (x : Flight) :
    (setAircraft fid t x).pilot_id = x.pilot_id := by
  unfold setAircraft; split <;> rfl

theorem setPilot_pilot_isSome (fid pid : Nat) (x : Flight)
    (h : x.pilot_id.isSome = true) : (setPilot fid pid x).pilot_id.isSome = true := by
  unfold setPilot; split
  · rfl
  · exact h

/-- A per-row UPDATE that never changes `flight_id` commutes with the
`WHERE flight_id = ?` lookup. -/
theorem flightLookup_map (db : DB) (g : Flight → Flight)
    (hid : ∀ x, (g x).flight_id = x.flight_id) (fid : Nat) (f : Flight)
    (hf : flightLookup db fid = some f) :
    flightLookup { db with flights := db.flights.map g } fid = some (g f) := by
  unfold flightLookup at hf ⊢
  rw [List.find?_map]
  have hcomp : ((fun x => x.flight_id == fid) ∘ g) = fun x => x.flight_id == fid := by
    funext x
    simp only [Function.comp_apply, hid x]
  rw [hcomp, hf]
  rfl

/-- `createFlight` never removes or rewrites an existing flight row:
any row found before is found unchanged after, whether the create
succeeded (it only appends) or failed (the store is untouched). -/
theorem flightLookup_createFlight (db : DB) (n : String) (dep arr : Nat)
    (s : FlightStatus) (a : String) (c : Int) (p : Option Nat) (d : Nat)
    (fid : Nat) (f : Flight) (hf : flightLookup db fid = some f) :
    flightLookup (createFlight db n dep arr s a c p d).1 fid = some f := by
  unfold createFlight
  split
  · exact hf
  split
  · exact hf
  split
  · exact hf
  split
  · unfold flightLookup at hf ⊢
    rw [List.find?_append, hf]
    rfl
  · exact hf

/-- C5: if a flight with number `n` already exists, `createFlight` with
number `n` fails with the uniqueness error and returns the store
unchanged — same flight rows, so same row count, every row untouched. -/
theorem createFlight_duplicate_rejected (db : DB) (n : String) (dep arr : Nat)
    (s : FlightStatus) (a : String) (c : Int) (p : Option Nat) (d : Nat)
    (h : flightNumberExists db n = true) :
    createFlight db n dep arr s a c p d = (db, Except.error DBError.duplicateFlightNumber) := by
  unfold createFlight
  rw [if_pos h]

/-- Witness for C5 on a concrete store: "BA1" already exists, so a
second create with "BA1" fails and leaves the store as it was. -/
theorem createFlight_duplicate_rejected_witness :
    createFlight exDB "BA1" 30 40 FlightStatus.Delayed "A320" 150 none 1 =
      (exDB, Except.error DBError.duplicateFlightNumber) :=
  createFlight_duplicate_rejected exDB "BA1" 30 40 FlightStatus.Delayed "A320" 150 none 1
    (by decide)

/-- C6: `updateFlightDeparture` fails exactly on an unresolved flight id
(leaving the store unchanged); on a resolved id it succeeds for every
new departure value — no comparison with the stored arrival time is
made — and afterwards the row holds the new departure. -/
theorem updateFlightDeparture_spec (db : DB) (fid newDep : Nat) :
    (flightLookup db fid = none →
      updateFlightDeparture db fid newDep = (db, Except.error DBError.unknownFlight)) ∧
    (∀ f, flightLookup db fid = some f →
      (updateFlightDeparture db fid newDep).2 = Except.ok () ∧
      flightLookup (updateFlightDeparture db fid newDep).1 fid =
        some { f with departure_time := newDep }) := by
  constructor
  · intro h
    unfold updateFlightDeparture
    rw [h]
  · intro f hf
    have hf2 : db.flights.find? (fun x => x.flight_id == fid) = some f := hf
    have hp := List.find?_some hf2
    unfold updateFlightDeparture
    rw [hf]
    refine ⟨rfl, ?_⟩
    have := flightLookup_map db (setDeparture fid newDep)
      (setDeparture_flight_id fid newDep) fid f hf
    rw [this]
    unfold setDeparture
    rw [if_pos hp]

/-- Witness for C6 at a flight whose stored arrival is 20: the update
to departure 99 (after the arrival) succeeds and is stored. -/
theorem updateFlightDeparture_spec_witness :
    (updateFlightDeparture exDB 1 99).2 = Except.ok () ∧
    flightLookup (updateFlightDeparture exDB 1 99).1 1 =
      some { ba1 with departure_time := 99 } ∧
    ba1.arrival_time < 99 :=
  ⟨((updateFlightDeparture_spec exDB 1 99).2 ba1 (by decide)).1,
   ((updateFlightDeparture_spec exDB 1 99).2 ba1 (by decide)).2,
   by decide⟩

/-- C1 counterexample: a fresh flight number, a resolving destination,
arrival after departure, and a given pilot id 7 that resolves to no
pilot — yet `createFlight` succeeds and inserts the flight row, where
the claim requires a referential failure and no insertion. -/
theorem createFlight_unknownPilot_cex :
    flightNumberExists exDB1 "BA9" = false ∧
    destExists exDB1 1 = true ∧
    (5 : Nat) < 10 ∧
    pilotLookup exDB1 7 = none ∧
    (createFlight exDB1 "BA9" 5 10 FlightStatus.Scheduled "B737" 100 (some 7) 1).2 =
      Except.ok 1 ∧
    (createFlight exDB1 "BA9" 5 10 FlightStatus.Scheduled "B737" 100 (some 7) 1).1.flights.length =
      exDB1.flights.length + 1 := by
  decide

/-- C1 as amended: under those premises (with a nonzero pilot id, the
only kind the truthiness test in the code validates), `createFlight`
succeeds, appending the flight with its pilot reference cleared to
NULL; the unresolved pilot id is dropped, not reported as a failure. -/
theorem createFlight_unknownPilot_inserts (db : DB) (n : String) (dep arr : Nat)
    (s : FlightStatus) (a : String) (c : Int) (p : Nat) (d : Nat)
    (hn : flightNumberExists db n = false) (hord : dep < arr)
    (hd : destExists db d = true) (hp0 : p ≠ 0) (hp : pilotLookup db p = none) :
    createFlight db n dep arr s a c (some p) d =
      ({ db with
          flights := db.flights ++
            [{ flight_id := db.nextFlightId, flight_number := n, departure_time := dep,
               arrival_time := arr, status := s, aircraft_type := a, capacity := c,
               pilot_id := none, destination_id := d }],
          nextFlightId := db.nextFlightId + 1 },
       Except.ok db.nextFlightId) := by
  have h2 : ¬ arr ≤ dep := Nat.not_le.mpr hord
  have hp0b : (p == 0) = false := beq_eq_false_iff_ne.mpr hp0
  have href : resolvedPilotRef db (some p) = none := by
    simp [resolvedPilotRef, hp0b, hp]
  unfold createFlight
  rw [hn, if_neg (by simp), if_neg h2, hd, href]
  rfl

/-- Witness for the amended C1 at a concrete store and pilot id 7. -/
theorem createFlight_unknownPilot_inserts_witness :
    createFlight exDB1 "BA9" 5 10 FlightStatus.Scheduled "B737" 100 (some 7) 1 =
      ({ exDB1 with
          flights := exDB1.flights ++
            [{ flight_id := 1, flight_number := "BA9", departure_time := 5,
               arrival_time := 10, status := FlightStatus.Scheduled,
               aircraft_type := "B737", capacity := 100,
               pilot_id := none, destination_id := 1 }],
          nextFlightId := 2 },
       Except.ok 1) :=
  createFlight_unknownPilot_inserts exDB1 "BA9" 5 10 FlightStatus.Scheduled "B737" 100 7 1
    (by decide) (by decide) (by decide) (by decide) (by decide)

/-- C9 counterexample: `createFlight` accepts and stores a negative
passenger capacity, so positivity of capacity is not an invariant of
reachable stores. -/
theorem createFlight_capacity_cex :
    (createFlight exDB1 "BA8" 5 10 FlightStatus.Scheduled "B737" (-5) none 1).2 =
      Except.ok 1 ∧
    (createFlight exDB1 "BA8" 5 10 FlightStatus.Scheduled "B737" (-5) none 1).1.flights =
      [{ flight_id := 1, flight_number := "BA8", departure_time := 5, arrival_time := 10,
         status := FlightStatus.Scheduled, aircraft_type := "B737", capacity := -5,
         pilot_id := none, destination_id := 1 }] := by
  decide

/-- C9 as amended: `createFlight` performs no check on the capacity
argument — for every integer capacity, including zero and negatives,
creation succeeds once the number/ordering/destination checks pass, and
the given capacity is stored verbatim. -/
theorem createFlight_any_capacity (db : DB) (n : String) (dep arr : Nat)
    (s : FlightStatus) (a : String) (c : Int) (d : Nat)
    (hn : flightNumberExists db n = false) (hord : dep < arr)
    (hd : destExists db d = true) :
    (createFlight db n dep arr s a c none d).2 = Except.ok db.nextFlightId ∧
    (createFlight db n dep arr s a c none d).1.flights =
      db.flights ++
        [{ flight_id := db.nextFlightId, flight_number := n, departure_time := dep,
           arrival_time := arr, status := s, aircraft_type := a, capacity := c,
           pilot_id := none, destination_id := d }] := by
  have h2 : ¬ arr ≤ dep := Nat.not_le.mpr hord
  unfold createFlight
  rw [hn, if_neg (by simp), if_neg h2, hd]
  exact ⟨rfl, rfl⟩

/-- Witness for the amended C9 with capacity 0. -/
theorem createFlight_any_capacity_witness :
    (createFlight exDB1 "BA7" 5 10 FlightStatus.Scheduled "B737" 0 none 1).2 =
      Except.ok 1 ∧
    (createFlight exDB1 "BA7" 5 10 FlightStatus.Scheduled "B737" 0 none 1).1.flights =
      exDB1.flights ++
        [{ flight_id := 1, flight_number := "BA7", departure_time := 5, arrival_time := 10,
           status := FlightStatus.Scheduled, aircraft_type := "B737", capacity := 0,
           pilot_id := none, destination_id := 1 }] :=
  createFlight_any_capacity exDB1 "BA7" 5 10 FlightStatus.Scheduled "B737" 0 1
    (by decide) (by decide) (by decide)

/-- One exposed operation never clears the pilot reference of a flight: a
flight found with an assigned pilot is still found afterwards, still
with an assigned (possibly different) pilot. -/
theorem applyOp_pilot_stays_assigned (db : DB) (op : Op) (fid : Nat) (f : Flight)
    (hf : flightLookup db fid = some f) (hp : f.pilot_id.isSome = true) :
    ∃ g, flightLookup (applyOp db op) fid = some g ∧ g.pilot_id.isSome = true := by
  cases op with
  | create n dep arr s a c p d =>
      exact ⟨f, flightLookup_createFlight db n dep arr s a c p d fid f hf, hp⟩
  | updStatus fid0 s =>
      show ∃ g, flightLookup (updateFlightStatus db fid0 s).1 fid = some g ∧ _
      unfold updateFlightStatus
      cases flightLookup db fid0 with
      | none => exact ⟨f, hf, hp⟩
      | some f0 =>
          refine ⟨setStatus fid0 s f, ?_, ?_⟩
          · exact flightLookup_map db (setStatus fid0 s) (setStatus_flight_id fid0 s) fid f hf
          · rw [setStatus_pilot_id]
            exact hp
  | updDeparture fid0 dep =>
      show ∃ g, flightLookup (updateFlightDeparture db fid0 dep).1 fid = some g ∧ _
      unfold updateFlightDeparture
      cases flightLookup db fid0 with
      | none => exact ⟨f, hf, hp⟩
      | some f0 =>
          refine ⟨setDeparture fid0 dep f, ?_, ?_⟩
          · exact flightLookup_map db (setDeparture fid0 dep) (setDeparture_flight_id fid0 dep) fid f hf
          · rw [setDeparture_pilot_id]
            exact hp
  | updAircraft fid0 t =>
      show ∃ g, flightLookup (updateFlightAircraft db fid0 t).1 fid = some g ∧ _
      unfold updateFlightAircraft
      cases flightLookup db fid0 with
      | none => exact ⟨f, hf, hp⟩
      | some f0 =>
          refine ⟨setAircraft fid0 t f, ?_, ?_⟩
          · exact flightLookup_map db (setAircraft fid0 t) (setAircraft_flight_id fid0 t) fid f hf
          · rw [setAircraft_pilot_id]
            exact hp
  | assign fid0 pid =>
      show ∃ g, flightLookup (assignPilot db fid0 pid).1 fid = some g ∧ _
      unfold assignPilot
      cases flightLookup db fid0 with
      | none => exact ⟨f, hf, hp⟩
      | some f0 =>
          cases pilotLookup db pid with
          | none => exact ⟨f, hf, hp⟩
          | some q =>
              refine ⟨setPilot fid0 pid f, ?_, ?_⟩
              · exact flightLookup_map db (setPilot fid0 pid) (setPilot_flight_id fid0 pid) fid f hf
              · exact setPilot_pilot_isSome fid0 pid f hp
  | updTerminal did t =>
      show ∃ g, flightLookup (updateDestinationTerminal db did t).1 fid = some g ∧ _
      unfold updateDestinationTerminal
      cases db.destinations.find? (fun d => d.destination_id == did) with
      | none => exact ⟨f, hf, hp⟩
      | some d0 => exact ⟨f, hf, hp⟩

/-- C10: once a flight has a non-null pilot reference, no reachable
sequence of exposed operations returns it to the unassigned state — the
flight still exists and still carries some pilot after any operation
sequence. -/
theorem assigned_pilot_never_cleared (db : DB) (ops : List Op) (fid : Nat) (f : Flight)
    (hf : flightLookup db fid = some f) (hp : f.pilot_id.isSome = true) :
    ∃ g, flightLookup (runOps db ops) fid = some g ∧ g.pilot_id.isSome = true := by
  induction ops generalizing db f with
  | nil => exact ⟨f, hf, hp⟩
  | cons op rest ih =>
      obtain ⟨g, hg, hgp⟩ := applyOp_pilot_stays_assigned db op fid f hf hp
      exact ih (applyOp db op) g hg hgp

/-- Witness for C10: starting from a store whose flight 1 is crewed, a
concrete operation sequence (reassignment, status update, departure
update, a create) still leaves flight 1 with an assigned pilot. -/
theorem assigned_pilot_never_cleared_witness :
    ∃ g, flightLookup
        (runOps exDB
          [Op.assign 1 1, Op.updStatus 1 FlightStatus.Delayed, Op.updDeparture 1 99,
           Op.create "BA2" 5 10 FlightStatus.Scheduled "A320" 150 none 1]) 1 =
        some g ∧ g.pilot_id.isSome = true :=
  assigned_pilot_never_cleared exDB
    [Op.assign 1 1, Op.updStatus 1 FlightStatus.Delayed, Op.updDeparture 1 99,
     Op.create "BA2" 5 10 FlightStatus.Scheduled "A320" 150 none 1]
    1 ba1 (by decide) (by decide)

/-- C7: the destination listing is outer-counted and complete — it has
exactly one row per stored destination (N rows for N destinations),
every destination appears with its true flight count (so zero-flight
destinations appear with count 0 instead of being omitted), and the
number of zero-count rows equals the number of destinations no flight
references. -/
theorem listDestinations_outer_complete (db : DB) :
    (listDestinations db).length = db.destinations.length ∧
    (∀ d, d ∈ db.destinations →
      ({ destination_id := d.destination_id, airport_code := d.airport_code,
         city_name := d.city_name, country := d.country,
         terminal_info := d.terminal_info,
         flight_count := countFlightsTo db d.destination_id } : DestListRow) ∈
        listDestinations db) ∧
    (listDestinations db).countP (fun r => r.flight_count == 0) =
      db.destinations.countP (fun d => countFlightsTo db d.destination_id == 0) := by
  unfold listDestinations
  refine ⟨?_, ?_, ?_⟩
  · rw [List.length_insertionSort, List.length_map]
  · intro d hd
    rw [List.mem_insertionSort]
    exact List.mem_map_of_mem _ hd
  · rw [(List.perm_insertionSort cityLe _).countP_eq, List.countP_map]
    rfl

/-- Witness for C7 at a store with two destinations and no flights:
both zero-flight destinations are listed with count 0. -/
theorem listDestinations_outer_complete_witness :
    (listDestinations exDB2).length = 2 ∧
    ({ destination_id := 1, airport_code := "ZRH", city_name := "Zurich",
       country := "Switzerland", terminal_info := some "A",
       flight_count := 0 } : DestListRow) ∈ listDestinations exDB2 ∧
    (listDestinations exDB2).countP (fun r => r.flight_count == 0) = 2 :=
  ⟨(listDestinations_outer_complete exDB2).1,
   (listDestinations_outer_complete exDB2).2.1
     { destination_id := 1, airport_code := "ZRH", city_name := "Zurich",
       country := "Switzerland", timezone := "CET+1", terminal_info := some "A" }
     (by decide),
   ((listDestinations_outer_complete exDB2).2.2).trans (by decide)⟩

/-- The SQL integer behind a result value (0 for non-integers). -/
def valInt : Val → Int
  | .int n => n
  | _ => 0

/-- The departure column of a listing row: all four flight-listing row
shapes carry `f.departure_time` at index 1. -/
def rowDep (r : List Val) : Int := valInt (r.getD 1 Val.null)

/-- Listing rows ordered by their departure column. -/
def rowDepLe (r1 r2 : List Val) : Prop := rowDep r1 ≤ rowDep r2

/-- Mapping sorted join rows to result rows preserves sortedness when
the row shape keeps the departure key at index 1. -/
theorem sorted_map_rows (l : List (Flight × Destination))
    (rowFn : Flight × Destination → List Val)
    (hkey : ∀ fd, rowDep (rowFn fd) = (fd.1.departure_time : Int)) :
    List.Sorted rowDepLe ((sortByDeparture l).map rowFn) := by
  have hs : List.Sorted depLe (sortByDeparture l) := List.sorted_insertionSort depLe l
  refine List.Pairwise.map rowFn ?_ hs
  intro a b hab
  show rowDep (rowFn a) ≤ rowDep (rowFn b)
  rw [hkey a, hkey b]
  exact_mod_cast hab

/-- C8: every flight-listing result — by destination, by status, all
flights, and the pilot schedule — is sorted by the departure timestamp
ascending. -/
theorem listings_sorted_by_departure (db : DB) (code : String) (s : FlightStatus)
    (pid : Nat) :
    List.Sorted rowDepLe (listFlightsByDestination db code) ∧
    List.Sorted rowDepLe (listFlightsByStatus db s) ∧
    List.Sorted rowDepLe (listAllFlights db) ∧
    (∀ rows, getPilotSchedule db pid = Except.ok rows → List.Sorted rowDepLe rows) := by
  refine ⟨sorted_map_rows _ _ (fun fd => rfl), sorted_map_rows _ _ (fun fd => rfl),
    sorted_map_rows _ _ (fun fd => rfl), ?_⟩
  intro rows h
  unfold getPilotSchedule at h
  cases hp : pilotLookup db pid with
  | none => rw [hp] at h; exact absurd h (by simp)
  | some q =>
      rw [hp] at h
      have : rows = (sortByDeparture ((joinedFlights db).filter
          (fun fd => fd.1.pilot_id == some pid))).map (fun fd => rowSchedule fd.1 fd.2) :=
        (Except.ok.inj h).symm
      rw [this]
      exact sorted_map_rows _ _ (fun fd => rfl)

/-- Witness for C8 at a concrete store, including the pilot-schedule
hypothesis discharged at pilot 1. -/
theorem listings_sorted_by_departure_witness :
    List.Sorted rowDepLe (listFlightsByDestination exDB "LHR") ∧
    List.Sorted rowDepLe
      [[Val.text "BA1", Val.int 10, Val.int 20, Val.text "Scheduled", Val.text "London"]] :=
  ⟨(listings_sorted_by_departure exDB "LHR" FlightStatus.Scheduled 1).1,
   (listings_sorted_by_departure exDB "LHR" FlightStatus.Scheduled 1).2.2.2 _ (by decide)⟩

/-- C2 counterexample: two destinations with equal (zero) flight
counts; the grouping emits them in destination-id order and the query
has no city tiebreak, so "Zurich" is ranked before the lexicographically
smaller "Amsterdam", contradicting the claimed city-ascending
tie-break. -/
theorem topDestinations_tie_cex :
    topDestinations exDB2 =
      [{ city_name := "Zurich", airport_code := "ZRH", flight_count := 0 },
       { city_name := "Amsterdam", airport_code := "AMS", flight_count := 0 }] ∧
    strLeB "Amsterdam" "Zurich" = true ∧ strLeB "Zurich" "Amsterdam" = false := by
  decide

/-- C2 as amended: the top-destinations block returns at most five rows
— exactly `min 5 N` of them — ranked by flight count descending, each
row being a stored destination with its true outer-counted flight
total; no ordering among equal counts is promised (the code has no
secondary sort key). -/
theorem topDestinations_ranking (db : DB) :
    List.Sorted countGe (topDestinations db) ∧
    (topDestinations db).length = min 5 db.destinations.length ∧
    (∀ r, r ∈ topDestinations db → ∃ d, d ∈ db.destinations ∧
      r = { city_name := d.city_name, airport_code := d.airport_code,
            flight_count := countFlightsTo db d.destination_id }) := by
  refine ⟨?_, ?_, ?_⟩
  · exact List.Pairwise.sublist (List.take_sublist 5 _)
      (List.sorted_insertionSort countGe (statGroups db))
  · unfold topDestinations statGroups
    rw [List.length_take, List.length_insertionSort, List.length_map,
      List.length_insertionSort]
  · intro r hr
    have hr2 : r ∈ List.insertionSort countGe (statGroups db) := List.mem_of_mem_take hr
    rw [List.mem_insertionSort] at hr2
    unfold statGroups at hr2
    rw [List.mem_map] at hr2
    obtain ⟨d, hd, hdr⟩ := hr2
    rw [List.mem_insertionSort] at hd
    exact ⟨d, hd, hdr.symm⟩

/-- Witness for the amended C2: the first ranked row at a concrete
store is a stored destination with its true count. -/
theorem topDestinations_ranking_witness :
    ∃ d, d ∈ exDB2.destinations ∧
      ({ city_name := "Zurich", airport_code := "ZRH", flight_count := 0 } : StatRow) =
        { city_name := d.city_name, airport_code := d.airport_code,
          flight_count := countFlightsTo exDB2 d.destination_id } :=
  (topDestinations_ranking exDB2).2.2
    { city_name := "Zurich", airport_code := "ZRH", flight_count := 0 } (by decide)

/-- C3 counterexample: at a concrete store the by-status row of flight
BA1 is (number, departure, city, airport code, pilot) — it is not the
(number, departure, status, city, pilot) row that the by-destination
listing produces for the same flight, so the two shapes differ. -/
theorem listFlightsByStatus_shape_cex :
    listFlightsByStatus exDB FlightStatus.Scheduled =
      [[Val.text "BA1", Val.int 10, Val.text "London", Val.text "LHR",
        Val.text "John", Val.text "Smith"]] ∧
    listFlightsByDestination exDB "LHR" =
      [[Val.text "BA1", Val.int 10, Val.text "Scheduled", Val.text "London",
        Val.text "John", Val.text "Smith"]] ∧
    ¬ ((listFlightsByStatus exDB FlightStatus.Scheduled).getD 0 [] =
        [Val.text "BA1", Val.int 10, Val.text "Scheduled", Val.text "London",
         Val.text "John", Val.text "Smith"]) := by
  decide

/-- C3 as amended: a row is in `listFlightsByStatus db s` exactly when
it is the (flight number, departure, city name, airport code, pilot
first/last name-or-null) row of a stored flight with status `s` joined
to its stored destination — a different shape from
`listFlightsByDestination`, which carries the status column instead of
the airport code. -/
theorem listFlightsByStatus_row_shape (db : DB) (s : FlightStatus) (r : List Val) :
    r ∈ listFlightsByStatus db s ↔
      ∃ f d, f ∈ db.flights ∧ d ∈ db.destinations ∧ f.status = s ∧
        f.destination_id = d.destination_id ∧
        r = [Val.text f.flight_number, Val.int f.departure_time, Val.text d.city_name,
             Val.text d.airport_code, (pilotVals db f).1, (pilotVals db f).2] := by
  unfold listFlightsByStatus sortByDeparture
  rw [List.mem_map]
  constructor
  · rintro ⟨fd, hfd, hr⟩
    rw [List.mem_insertionSort, List.mem_filter] at hfd
    obtain ⟨hj, hst⟩ := hfd
    unfold joinedFlights at hj
    rw [List.mem_flatMap] at hj
    obtain ⟨f, hf, hfd2⟩ := hj
    rw [List.mem_map] at hfd2
    obtain ⟨d, hd, hfd3⟩ := hfd2
    rw [List.mem_filter] at hd
    subst hfd3
    refine ⟨f, d, hf, hd.1, beq_iff_eq.mp hst, (beq_iff_eq.mp hd.2).symm, ?_⟩
    rw [← hr]
    rfl
  · rintro ⟨f, d, hf, hd, hst, hdd, hr⟩
    refine ⟨(f, d), ?_, ?_⟩
    · rw [List.mem_insertionSort, List.mem_filter]
      refine ⟨?_, beq_iff_eq.mpr hst⟩
      unfold joinedFlights
      rw [List.mem_flatMap]
      refine ⟨f, hf, ?_⟩
      rw [List.mem_map]
      exact ⟨d, List.mem_filter.mpr ⟨hd, beq_iff_eq.mpr hdd.symm⟩, rfl⟩
    · rw [hr]
      rfl

/-- Witness for the amended C3: the concrete by-status row of BA1
arises from the characterization applied to the stored flight and
destination. -/
theorem listFlightsByStatus_row_shape_witness :
    [Val.text "BA1", Val.int 10, Val.text "London", Val.text "LHR",
     Val.text "John", Val.text "Smith"] ∈
      listFlightsByStatus exDB FlightStatus.Scheduled :=
  (listFlightsByStatus_row_shape exDB FlightStatus.Scheduled
      [Val.text "BA1", Val.int 10, Val.text "London", Val.text "LHR",
       Val.text "John", Val.text "Smith"]).mpr
    ⟨ba1, lhr, by decide, by decide, by decide, by decide, by decide⟩

/-- C4 at its failing input: a store whose only flight has a NULL pilot
reference.  The flight appears in all three listings (outer-join
inclusion holds), and the by-destination and by-status displays report
"Unassigned"; but the all-flights display interpolates row index 4 —
the airport code in that seven-column shape — so it prints "LHR None"
instead of "Unassigned". -/
theorem unassigned_pilot_display_bug :
    listFlightsByDestination exDB4 "LHR" =
      [[Val.text "BA1", Val.int 10, Val.text "Scheduled", Val.text "London",
        Val.null, Val.null]] ∧
    displayedPilotName ((listFlightsByDestination exDB4 "LHR").getD 0 []) = "Unassigned" ∧
    listFlightsByStatus exDB4 FlightStatus.Scheduled =
      [[Val.text "BA1", Val.int 10, Val.text "London", Val.text "LHR",
        Val.null, Val.null]] ∧
    displayedPilotName ((listFlightsByStatus exDB4 FlightStatus.Scheduled).getD 0 []) =
      "Unassigned" ∧
    listAllFlights exDB4 =
      [[Val.text "BA1", Val.int 10, Val.text "Scheduled", Val.text "London",
        Val.text "LHR", Val.null, Val.null]] ∧
    displayedPilotName ((listAllFlights exDB4).getD 0 []) = "LHR None" := by
  decide
